import Mathlib

/-!
Verification development for the Pillager Tournament Tracker (`app.js`).

The single source file is shallowly embedded below:
* gviz table structures (`GTable`, `GRow`, `GCell`, `GValue`) model the raw
  table delivered by the Google Visualization endpoint;
* `parseCourts`, `parseRounds`, `timeCell`, `cell` embed the parser;
* `renderMatchup`, `renderAll` and friends embed the renderer, with the
  JavaScript exception pathway (out-of-range indexing) made explicit through
  `Option`;
* `handleGvizResponse` embeds the response handler of `fetchSheetData`, and
  `loadData` the load cycle's state transition.

JavaScript platform primitives (`String.prototype.trim`, `Number`,
`Array.prototype.sort`, …) are modelled on the value domains the sheet
actually produces; each model notes what it covers.
-/

/-- JS whitespace (`\s`, `trim`): space, tab, line feed, carriage return,
vertical tab, form feed, no-break space, BOM.  The remaining rare Unicode
space separators matched by JS are omitted (sheet headers are ASCII). -/
def isJsSpace (c : Char) : Bool :=
  c = ' ' || c = '\t' || c = '\n' || c = '\x0d' ||
  c = Char.ofNat 11 || c = Char.ofNat 12 || c = Char.ofNat 160 || c = Char.ofNat 0xfeff

/-- JS line terminators, which `.` in a regex does not match. -/
def isJsLineTerm (c : Char) : Bool :=
  c = '\n' || c = '\x0d' || c = Char.ofNat 0x2028 || c = Char.ofNat 0x2029

/-- The `String.prototype.trim`. -/
def jsTrim (s : String) : String :=
  ⟨((s.data.dropWhile isJsSpace).reverse.dropWhile isJsSpace).reverse⟩

/-- The `String.prototype.toLowerCase` on the ASCII range (headers are ASCII). -/
def jsToLower (s : String) : String :=
  ⟨s.data.map Char.toLower⟩

/-- The `String.prototype.padStart(2, '0')`. -/
def padStart2 (s : String) : String :=
  if s.length < 2 then ⟨List.replicate (2 - s.length) '0'⟩ ++ s else s

/-- Value of a run of decimal digits. -/
def digitsToNat (cs : List Char) : Nat :=
  cs.foldl (fun a c => a * 10 + (c.toNat - 48)) 0

/-- First maximal digit run of a string: `s.match(/\d+/)?.[0]`. -/
def firstDigitRun : List Char → Option (List Char)
  | [] => none
  | c :: r => if c.isDigit then some (c :: r.takeWhile Char.isDigit) else firstDigitRun r

/-- A JS number as far as this app observes one: `NaN` or a rational value.
(`Infinity` and float rounding never arise from sheet scores.) -/
inductive JSNum where
  | nan
  | val (q : ℚ)
deriving DecidableEq, Repr

/-- Exponent suffix of a JS decimal numeral (`e5`, `E-2`, …) applied to a
mantissa; empty input returns the mantissa unchanged. -/
def parseExpSuffix (q : ℚ) : List Char → Option ℚ
  | [] => some q
  | e :: r =>
    if e = 'e' || e = 'E' then
      let sr : Bool × List Char :=
        match r with
        | '+' :: t => (true, t)
        | '-' :: t => (false, t)
        | t => (true, t)
      let ds := sr.2.takeWhile Char.isDigit
      let rest := sr.2.dropWhile Char.isDigit
      if ds = [] || rest ≠ [] then none
      else some (if sr.1 then q * 10 ^ digitsToNat ds else q / 10 ^ digitsToNat ds)
    else none

/-- Unsigned JS decimal numeral: digits, optional fraction, optional exponent. -/
def parseUnsignedDecimal (cs : List Char) : Option ℚ :=
  let ip := cs.takeWhile Char.isDigit
  let r1 := cs.dropWhile Char.isDigit
  match r1 with
  | '.' :: r2 =>
    let fp := r2.takeWhile Char.isDigit
    let r3 := r2.dropWhile Char.isDigit
    if ip = [] && fp = [] then none
    else parseExpSuffix ((digitsToNat (ip ++ fp) : ℚ) / 10 ^ fp.length) r3
  | _ => if ip = [] then none else parseExpSuffix ((digitsToNat ip : ℚ)) r1

/-- Signed JS decimal numeral. -/
def parseSignedDecimal : List Char → Option ℚ
  | '+' :: t => parseUnsignedDecimal t
  | '-' :: t => (parseUnsignedDecimal t).map Neg.neg
  | t => parseUnsignedDecimal t

/-- The `Number(s)` for a string: trims, maps `""` to `0`, parses a decimal
numeral, anything else is `NaN`.  (Hex/octal/binary numerals and
`Infinity`, which sheet cells never contain, also land on `NaN` here.) -/
def jsNumber (s : String) : JSNum :=
  let t := jsTrim s
  if t = "" then JSNum.val 0
  else
    match parseSignedDecimal t.data with
    | some q => JSNum.val q
    | none => JSNum.nan

/-- JS `>` on numbers: any comparison against `NaN` is false. -/
def jsGt : JSNum → JSNum → Bool
  | JSNum.val a, JSNum.val b => decide (b < a)
  | _, _ => false

/-- JS `null`/`undefined` coerce to `0` under numeric comparison. -/
def jsNumOfNullable : Option JSNum → JSNum
  | none => JSNum.val 0
  | some x => x

/-- JS `>` lifted to nullable operands as the renderer uses it. -/
def jsGtOpt (a b : Option JSNum) : Bool :=
  jsGt (jsNumOfNullable a) (jsNumOfNullable b)

/-- Decimal digit string of `n` padded on the left to `k` digits. -/
def natDigitsPadded (n k : Nat) : String :=
  let s := Nat.repr n
  if s.length < k then ⟨List.replicate (k - s.length) '0'⟩ ++ s else s

/-- The `String(x)` for a JS number.  Exact for `NaN`, integers, and the
finite-decimal rationals `jsNumber` produces (scores); the scientific
notation JS uses for huge magnitudes is not modelled. -/
def jsNumToString : JSNum → String
  | JSNum.nan => "NaN"
  | JSNum.val q =>
    let sign := if q < 0 then "-" else ""
    let n := q.num.natAbs
    let d := q.den
    let k := ((List.range 31).find? (fun k => (n * 10 ^ k) % d = 0)).getD 0
    let scaled := n * 10 ^ k / d
    if k = 0 then sign ++ Nat.repr scaled
    else sign ++ Nat.repr (scaled / 10 ^ k) ++ "." ++ natDigitsPadded (scaled % 10 ^ k) k

/-- Raw gviz cell values: strings, numbers, booleans, or the time-of-day
quadruple `[hours, minutes, seconds, ms]` the endpoint emits for
time-formatted columns. -/
inductive GValue where
  | str (s : String)
  | num (n : Int)
  | boolean (b : Bool)
  | timeofday (h m sec ms : Nat)
deriving DecidableEq, Repr

/-- The `String(v)` for a raw cell value (JS array stringification joins with
commas). -/
def stringOfGValue : GValue → String
  | GValue.str s => s
  | GValue.num n => if n < 0 then "-" ++ Nat.repr n.natAbs else Nat.repr n.natAbs
  | GValue.boolean b => if b then "true" else "false"
  | GValue.timeofday h m sec ms =>
    Nat.repr h ++ "," ++ Nat.repr m ++ "," ++ Nat.repr sec ++ "," ++ Nat.repr ms

/-- A gviz cell: raw value `v` and optional pre-formatted display string `f`. -/
structure GCell where
  v : Option GValue := none
  f : Option String := none
deriving DecidableEq, Repr

/-- A gviz row: `c` is the cell list; the endpoint emits `null` entries for
blank cells, and the whole list can be absent. -/
structure GRow where
  c : Option (List (Option GCell)) := none
deriving DecidableEq, Repr

/-- A gviz column descriptor (only the label is consumed). -/
structure GCol where
  label : Option String := none
deriving DecidableEq, Repr

/-- A gviz table. -/
structure GTable where
  cols : List GCol := []
  rows : List GRow := []
deriving DecidableEq, Repr

/-- A court definition derived from the sheet headers (`parseCourts`). -/
structure Court where
  name : String
  hasScores : Bool := false
  teamACol : Option Nat := none
  teamBCol : Option Nat := none
  scoreACol : Option Nat := none
  scoreBCol : Option Nat := none
deriving DecidableEq, Repr

/-- The `label.match(/^(Court\s+\d+)\s+(.+)$/i)`: on success returns the two
capture groups (court name with original casing, and the raw suffix).
Greedy backtracking for this pattern resolves deterministically: maximal
whitespace and digit runs, except that when everything after the digits is
whitespace the final character is ceded to `(.+)` (which cannot match a
line terminator). -/
def matchCourtHeader (label : String) : Option (String × String) :=
  let cs := label.data
  let pre5 := cs.take 5
  if pre5.map Char.toLower = "court".data then
    let rest := cs.drop 5
    let ws1 := rest.takeWhile isJsSpace
    let r1 := rest.dropWhile isJsSpace
    let ds := r1.takeWhile Char.isDigit
    let r2 := r1.dropWhile Char.isDigit
    if ws1 = [] || ds = [] then none
    else
      let ws2 := r2.takeWhile isJsSpace
      let r3 := r2.dropWhile isJsSpace
      if ws2 = [] then none
      else
        let g2 : List Char :=
          if r3 = [] then ws2.drop (ws2.length - 1) else r3
        if (r3 = [] && ws2.length < 2) || g2.any isJsLineTerm then none
        else some (⟨pre5 ++ ws1 ++ ds⟩, ⟨g2⟩)
  else none

/-- A freshly created court entry (`{ name: courtName, hasScores: false }`). -/
def defaultCourt (name : String) : Court := { name := name }

/-- Field classification of one header suffix onto a court record. -/
def applyField (c : Court) (field : String) (i : Nat) : Court :=
  if field = "team a" || field = "a" then { c with teamACol := some i }
  else if field = "team b" || field = "b" then { c with teamBCol := some i }
  else if field = "score a" then { c with scoreACol := some i, hasScores := true }
  else if field = "score b" then { c with scoreBCol := some i, hasScores := true }
  else c

/-- One iteration of the `headers.forEach` loop in `parseCourts`: skip the
first two columns and empty labels, match the court pattern, create the
court on first sight, record the classified column.  The JS object keyed by
court name (non-integer string keys, hence insertion-ordered) is modelled
as an insertion-ordered list updated in place. -/
def courtStep (acc : List Court) (i : Nat) (label : String) : List Court :=
  if i < 2 || label = "" then acc
  else
    match matchCourtHeader label with
    | none => acc
    | some (courtName, suffixRaw) =>
      let field := jsToLower (jsTrim suffixRaw)
      let acc1 := if acc.any (fun c => c.name = courtName) then acc
                  else acc ++ [defaultCourt courtName]
      acc1.map (fun c => if c.name = courtName then applyField c field i else c)

/-- Pair every element with its index, starting at `n` (the `forEach` index). -/
def withIdxFrom (n : Nat) : List α → List (Nat × α)
  | [] => []
  | x :: xs => (n, x) :: withIdxFrom (n + 1) xs

/-- Stable insertion step for `sortByLe`. -/
def ordInsert (le : α → α → Bool) (a : α) : List α → List α
  | [] => [a]
  | b :: l => if le a b then a :: b :: l else b :: ordInsert le a l

/-- Stable sort; for a total preorder this is the unique stable sorted
permutation, which is what `Array.prototype.sort` (stable per ES2019) with a
consistent comparator produces. -/
def sortByLe (le : α → α → Bool) : List α → List α
  | [] => []
  | a :: l => ordInsert le a (sortByLe le l)

/-- The `parseInt` applied to the first digit run of a name, `0` when there is
none — the sort key of `parseCourts` and the accent class of `courtClass`. -/
def courtNum (s : String) : Nat :=
  match firstDigitRun s.data with
  | some ds => digitsToNat ds
  | none => 0

/-- Comparator `(a, b) => n(a.name) - n(b.name)` as a boolean preorder. -/
def courtLe (a b : Court) : Bool := courtNum a.name ≤ courtNum b.name

/-- The `parseCourts(headers)`. -/
def parseCourts (headers : List String) : List Court :=
  sortByLe courtLe
    ((withIdxFrom 0 headers).foldl (fun acc p => courtStep acc p.1 p.2) [])

/-- One matchup: a pair of opposing teams (with optional scores) on one
court in one round.  Empty string denotes "no value". -/
structure Matchup where
  court : String
  hasScores : Bool
  teamA : String
  teamB : String
  scoreA : String
  scoreB : String
deriving DecidableEq, Repr

/-- One time slot's full set of matchups across all known courts. -/
structure Round where
  time : String
  matchups : List Matchup
deriving DecidableEq, Repr

/-- The `cell(row, idx)` helper of `parseRounds`: nullish index, absent cell
list, out-of-range index, null cell, or null value all yield `""`;
otherwise the raw value is stringified and trimmed. -/
def cell (row : GRow) (idx : Option Nat) : String :=
  match idx with
  | none => ""
  | some i =>
    match row.c with
    | none => ""
    | some cells =>
      match cells.get? i with
      | none => ""
      | some none => ""
      | some (some cl) =>
        match cl.v with
        | none => ""
        | some v => jsTrim (stringOfGValue v)

/-- Twelve-hour rendering of a `[h, m, …]` time-of-day value (lines 112-115 of
`app.js`): `h % 12 || 12`, AM/PM by `h >= 12`, minutes only when non-zero,
zero-padded to two digits. -/
def jsTimeString (h m : Nat) : String :=
  let ampm := if h ≥ 12 then "PM" else "AM"
  let h12 := if h % 12 = 0 then 12 else h % 12
  if m = 0 then Nat.repr h12 ++ ampm
  else Nat.repr h12 ++ ":" ++ padStart2 (Nat.repr m) ++ ampm

/-- The `timeCell(row, idx)` helper of `parseRounds`: prefer the
pre-formatted `.f` string (trimmed), else render a time-of-day array, else
stringify-and-trim the raw value; missing pieces yield `""`. -/
def timeCell (row : GRow) (idx : Nat) : String :=
  match row.c with
  | none => ""
  | some cells =>
    match cells.get? idx with
    | none => ""
    | some none => ""
    | some (some col) =>
      match col.f with
      | some s => jsTrim s
      | none =>
        match col.v with
        | none => ""
        | some (GValue.timeofday h m _ _) => jsTimeString h m
        | some v => jsTrim (stringOfGValue v)

/-- Header labels of a table: `table.cols.map(c => c.label ?? '')`. -/
def tableHeaders (table : GTable) : List String :=
  table.cols.map (fun c => c.label.getD (""))

/-- The `parseRounds(table)`: derive the courts from the headers once, then map
every data row to a round with one matchup per court. -/
def parseRounds (table : GTable) : List Round :=
  let courts := parseCourts (tableHeaders table)
  table.rows.map (fun row =>
    { time := timeCell row 1
      matchups := courts.map (fun ct =>
        { court := ct.name
          hasScores := ct.hasScores
          teamA := cell row ct.teamACol
          teamB := cell row ct.teamBCol
          scoreA := match ct.scoreACol with | some i => cell row (some i) | none => ""
          scoreB := match ct.scoreBCol with | some i => cell row (some i) | none => "" }) })

/-- The `Set` insertion: skip empty names, add first occurrences in order. -/
def addTeam (acc : List String) (t : String) : List String :=
  if t = "" then acc
  else if acc.contains t then acc else acc ++ [t]

/-- The `collectTeams(rounds)`: distinct non-empty team names, sorted.
(`localeCompare` is modelled as code-point order; team names are ASCII.) -/
def collectTeams (rounds : List Round) : List String :=
  let teams := rounds.foldl
    (fun acc r => r.matchups.foldl (fun acc m => addTeam (addTeam acc m.teamA) m.teamB) acc) []
  sortByLe (fun a b => decide (a ≤ b)) teams

/-- The `courtClass(name)`: accent class from the first digit run of the name. -/
def courtClass (name : String) : String :=
  "court-" ++ (match firstDigitRun name.data with
               | some ds => (⟨ds⟩ : String)
               | none => "")

/-- The em-dash placeholder cell. -/
def dashSpan : String := "<span class=\"no-matches\">—</span>"

/-- The `const sA = m.scoreA !== '' ? Number(m.scoreA) : null`. -/
def matchupScoreA (m : Matchup) : Option JSNum :=
  if m.scoreA ≠ "" then some (jsNumber m.scoreA) else none

/-- The `const sB = m.scoreB !== '' ? Number(m.scoreB) : null`. -/
def matchupScoreB (m : Matchup) : Option JSNum :=
  if m.scoreB ≠ "" then some (jsNumber m.scoreB) else none

/-- The `const both = sA != null && sB != null`. -/
def bothScoresPresent (m : Matchup) : Bool :=
  (matchupScoreA m).isSome && (matchupScoreB m).isSome

/-- The `const aWins = showWinner && both && sA > sB`. -/
def aWins (m : Matchup) (showWinner : Bool) : Bool :=
  showWinner && bothScoresPresent m && jsGtOpt (matchupScoreA m) (matchupScoreB m)

/-- The `const bWins = showWinner && both && sB > sA`. -/
def bWins (m : Matchup) (showWinner : Bool) : Bool :=
  showWinner && bothScoresPresent m && jsGtOpt (matchupScoreB m) (matchupScoreA m)

/-- The `scoreTag(s)`. -/
def scoreTag : Option JSNum → String
  | some s => "<span class=\"team-score\">" ++ jsNumToString s ++ "</span>"
  | none => ""

/-- The `renderMatchup(m, showWinner)`: the produced HTML fragment. -/
def renderMatchup (m : Matchup) (showWinner : Bool) : String :=
  if m.teamA = "" && m.teamB = "" then dashSpan
  else
    "<div class=\"match-teams\">\n  <div class=\"team-row"
      ++ (if aWins m showWinner then " winner" else "") ++ "\">\n    <span class=\"team-players\">"
      ++ (if m.teamA = "" then "—" else m.teamA) ++ "</span>" ++ scoreTag (matchupScoreA m)
      ++ "\n  </div>\n  <div class=\"vs-divider\">vs</div>\n  <div class=\"team-row"
      ++ (if bWins m showWinner then " winner" else "") ++ "\">\n    <span class=\"team-players\">"
      ++ (if m.teamB = "" then "—" else m.teamB) ++ "</span>" ++ scoreTag (matchupScoreB m)
      ++ "\n  </div>\n</div>"

/-- Empty-sheet message (`validRounds.length === 0`). -/
def emptySheetMsg : String :=
  "<p class=\"loading\">Sheet is empty — add data to your Google Sheet to see matches here.</p>"

/-- No-matches-for-team message (`courtIndices.length === 0`). -/
def noMatchesMsg : String :=
  "<p class=\"loading\">No matches found for the selected team.</p>"

/-- The per-cell `showWinner` flag of `renderAll` (lines 233-235):
`roundIdx === validRounds.length - 1 || validRounds[roundIdx + 1].matchups
.some(nm => nm.teamA !== '' || nm.teamB !== '')`.  The source only reads
`validRounds[roundIdx+1]` when `roundIdx` is not the last index, so for
every index that occurs in `renderAll` the `none` branch is unreachable. -/
def nextRoundHasData (validRounds : List Round) (roundIdx : Nat) : Bool :=
  decide (roundIdx = validRounds.length - 1) ||
    (match validRounds.get? (roundIdx + 1) with
     | some nr => nr.matchups.any (fun nm => decide (nm.teamA ≠ "") || decide (nm.teamB ≠ ""))
     | none => false)

/-- The court-filter predicate body (lines 213-216): reads
`r.matchups[i]`; `none` models the TypeError thrown on a jagged round. -/
def roundHasTeamAt (f : String) (i : Nat) (r : Round) : Option Bool :=
  (r.matchups.get? i).map (fun m => decide (m.teamA = f ∨ m.teamB = f))

/-- The `Array.prototype.some` with a fallible (throwing) predicate:
short-circuits on the first `true`. -/
def jsSome (p : α → Option Bool) : List α → Option Bool
  | [] => some false
  | x :: xs =>
    match p x with
    | none => none
    | some true => some true
    | some false => jsSome p xs

/-- The `Array.prototype.filter` with a fallible predicate. -/
def filterOption (p : α → Option Bool) : List α → Option (List α)
  | [] => some []
  | x :: xs =>
    match p x with
    | none => none
    | some b => (filterOption p xs).map (fun ys => if b then x :: ys else ys)

/-- The `Array.prototype.map` with a fallible body. -/
def mapOption (g : α → Option β) : List α → Option (List β)
  | [] => some []
  | x :: xs =>
    match g x with
    | none => none
    | some y => (mapOption g xs).map (fun ys => y :: ys)

/-- The `Array.prototype.map` with index and a fallible body. -/
def mapIdxOptionFrom (g : Nat → α → Option β) (n : Nat) : List α → Option (List β)
  | [] => some []
  | x :: xs =>
    match g n x with
    | none => none
    | some y => (mapIdxOptionFrom g (n + 1) xs).map (fun ys => y :: ys)

/-- Version of `mapIdxOptionFrom` starting at index 0. -/
def mapIdxOption (g : Nat → α → Option β) (l : List α) : Option (List β) :=
  mapIdxOptionFrom g 0 l

/-- The court row indices of `renderAll` (lines 210-217): all indices of
`allCourts`, restricted — when a team filter is active — to courts having
the filtered team in some valid round. -/
def courtRowIndices (validRounds : List Round) (n : Nat) (f : String) : Option (List Nat) :=
  if f = "" then some (List.range n)
  else filterOption (fun i => jsSome (roundHasTeamAt f i) validRounds) (List.range n)

/-- One `<td>` cell of the grid (lines 231-239). -/
def cellHtml (validRounds : List Round) (f : String) (courtIdx roundIdx : Nat)
    (round : Round) : Option String :=
  match round.matchups.get? courtIdx with
  | none => none
  | some m =>
    let showCell := f = "" || m.teamA = f || m.teamB = f
    some ("<td class=\"matchup-cell\">"
      ++ (if showCell then renderMatchup m (nextRoundHasData validRounds roundIdx) else dashSpan)
      ++ "</td>")

/-- One `<tr>` court row of the grid (lines 229-241). -/
def courtRowHtml (validRounds : List Round) (allCourts : List Matchup) (f : String)
    (courtIdx : Nat) : Option String :=
  match allCourts.get? courtIdx with
  | none => none
  | some cm =>
    (mapIdxOption (cellHtml validRounds f courtIdx) validRounds).map (fun cells =>
      "<tr><th class=\"court-header " ++ courtClass cm.court ++ "\">" ++ cm.court
        ++ "</th>" ++ String.join cells ++ "</tr>")

/-- The full grid markup (lines 225-245). -/
def renderGrid (validRounds : List Round) (allCourts : List Matchup) (f : String)
    (courtIdxs : List Nat) : Option String :=
  match mapOption (courtRowHtml validRounds allCourts f) courtIdxs with
  | none => none
  | some rows =>
    let headerCells :=
      String.join (validRounds.map (fun r => "<th class=\"time-header\">" ++ r.time ++ "</th>"))
    some ("<div class=\"schedule-wrapper\"><table class=\"schedule-table\"><thead><tr><th class=\"corner-cell\"></th>"
      ++ headerCells ++ "</tr></thead><tbody>" ++ String.join rows ++ "</tbody></table></div>")

/-- Body of `renderAll` after the valid-rounds filter has been applied. -/
def renderAllValid (validRounds : List Round) (f : String) : Option String :=
  match validRounds with
  | [] => some emptySheetMsg
  | v0 :: vrest =>
    let vr := v0 :: vrest
    let allCourts := v0.matchups
    match courtRowIndices vr allCourts.length f with
    | none => none
    | some courtIdxs =>
      if f ≠ "" ∧ courtIdxs = [] then some noMatchesMsg
      else renderGrid vr allCourts f courtIdxs

/-- The `renderAll(rounds)` with the active team filter made explicit: the
`innerHTML` written to `#tournament-content`, or `none` when the script
would throw.  (Scroll-offset preservation is a DOM side effect with no
bearing on the produced markup.) -/
def renderAll (rounds : List Round) (f : String) : Option String :=
  renderAllValid (rounds.filter (fun r => r.time ≠ "")) f

/-- One entry of the gviz error envelope. -/
structure GvizErrorEntry where
  message : Option String := none
  detailed_message : Option String := none
deriving DecidableEq, Repr

/-- A gviz response: status, error list, table — any may be absent. -/
structure GvizResponse where
  status : Option String := none
  errors : Option (List GvizErrorEntry) := none
  table : Option GTable := none
deriving DecidableEq, Repr

/-- JS `||` on an optional string against a fallback: `undefined`, `null`
and `""` are all falsy. -/
def jsOrString (a : Option String) (b : String) : String :=
  match a with
  | some s => if s = "" then b else s
  | none => b

/-- The `response?.errors?.[0]`. -/
def firstGvizError (response : Option GvizResponse) : Option GvizErrorEntry :=
  (response.bind (fun r => r.errors)).bind (fun l => l.get? 0)

/-- Fallback string of the rejection message. -/
def unknownErrorMsg : String := "Unknown error from Google Sheets"

/-- The rejection detail (lines 37-39): `detailed_message || message ||
'Unknown error from Google Sheets'` on the first error entry. -/
def gvizDetail (response : Option GvizResponse) : String :=
  jsOrString ((firstGvizError response).bind (fun e => e.detailed_message))
    (jsOrString ((firstGvizError response).bind (fun e => e.message)) unknownErrorMsg)

/-- The response callback of `fetchSheetData` (lines 31-42): resolve with
`response.table` when the status is `"ok"`, otherwise reject with the
extracted detail. -/
def handleGvizResponse (response : Option GvizResponse) : Except String (Option GTable) :=
  match response with
  | some r =>
    if r.status = some ("ok") then Except.ok r.table
    else Except.error (gvizDetail response)
  | none => Except.error (gvizDetail none)

/-- The UI state touched by `loadData`. -/
structure AppState where
  cachedRounds : Option (List Round) := none
  activeTeamFilter : String := ""
  statusText : String := ""
  statusState : String := "idle"
  content : String := ""
deriving DecidableEq, Repr

/-- Status text of the failure branch. -/
def failedStatusText : String := "Failed to load — retrying in 30 s"

/-- Error markup of the failure branch. -/
def errorContent (msg : String) : String :=
  "<p class=\"error-msg\">Could not load sheet data: " ++ msg ++ "</p>"

/-- The `loadData()` as a state transition (lines 260-276), with the awaited
fetch outcome and the wall-clock display string passed in.  On success the
rounds are parsed and cached, the filter selection is kept when it is still
among the collected teams (the rebuilt `<select>` falls back to the
"All Teams" option otherwise), and the grid is rendered; on failure the
cache is untouched and the content area shows the error message.  A
rendering exception would be caught by the same `catch` block after the
cache was already updated; it cannot occur for `parseRounds` output, and
its engine-specific message text is abstracted as `"TypeError"`. -/
def loadData (fetchResult : Except String GTable) (now : String) (st : AppState) : AppState :=
  match fetchResult with
  | Except.error e =>
    { st with statusText := failedStatusText, statusState := "error",
              content := errorContent e }
  | Except.ok table =>
    let rounds := parseRounds table
    let teams := collectTeams rounds
    let newFilter := if teams.contains st.activeTeamFilter then st.activeTeamFilter else ""
    match renderAll rounds newFilter with
    | some html =>
      { cachedRounds := some rounds, activeTeamFilter := newFilter,
        statusText := "Updated " ++ now ++ " · refreshes every 30 s",
        statusState := "live", content := html }
    | none =>
      { cachedRounds := some rounds, activeTeamFilter := newFilter,
        statusText := failedStatusText, statusState := "error",
        content := errorContent ("TypeError") }

/-- Modelled from the spec (claim C1's reading, for comparison with the
code's `nextRoundHasData`): winner highlighting enabled unless this is the
last valid round or the immediately following valid round has no non-empty
team field. -/
def claimedShowWinnerC1 (validRounds : List Round) (roundIdx : Nat) : Bool :=
  !(decide (roundIdx = validRounds.length - 1) ||
    !(match validRounds.get? (roundIdx + 1) with
      | some nr => nr.matchups.any (fun nm => decide (nm.teamA ≠ "") || decide (nm.teamB ≠ ""))
      | none => true))

/-- Modelled from the spec (claim C8's reading, for comparison with the
code's `gvizDetail`): the first error entry's `detailed_message` field if
present, else its `message` field if present, else the placeholder. -/
def claimedErrorDetailC8 (r : GvizResponse) : String :=
  match firstGvizError (some r) with
  | none => unknownErrorMsg
  | some e =>
    match e.detailed_message with
    | some s => s
    | none =>
      match e.message with
      | some s => s
      | none => unknownErrorMsg

/-- Demo matchup with decided scores (21 vs 15). -/
def demoMatchup : Matchup :=
  { court := "Court 1", hasScores := true, teamA := "Red", teamB := "Blue",
    scoreA := "21", scoreB := "15" }

/-- Demo matchup with side B holding the higher score (15 vs 21). -/
def demoMatchupBWin : Matchup :=
  { court := "Court 1", hasScores := true, teamA := "Red", teamB := "Blue",
    scoreA := "15", scoreB := "21" }

/-- Demo matchup with tied scores. -/
def demoTie : Matchup :=
  { court := "Court 1", hasScores := true, teamA := "Red", teamB := "Blue",
    scoreA := "15", scoreB := "15" }

/-- A single valid round holding `demoMatchup` — its index 0 is the last
valid round. -/
def demoSingleRounds : List Round := [{ time := "9AM", matchups := [demoMatchup] }]

/-- Demo gviz table: one full court (with scores), one compact court, one
data row at 10:00. -/
def demoTable : GTable :=
  { cols := [{ label := some ("Notes") }, { label := some ("Time") },
             { label := some ("Court 1 Team A") }, { label := some ("Court 1 Score A") },
             { label := some ("Court 1 Team B") }, { label := some ("Court 1 Score B") },
             { label := some ("Court 4 A") }, { label := some ("Court 4 B") }]
    rows := [{ c := some [none,
                          some { v := some (GValue.timeofday 10 0 0 0) },
                          some { v := some (GValue.str ("Red")) },
                          some { v := some (GValue.num 21) },
                          some { v := some (GValue.str ("Blue")) },
                          some { v := some (GValue.num 18) },
                          some { v := some (GValue.str ("Gold")) },
                          some { v := some (GValue.str ("Green")) }] }] }

/-- The round `parseRounds demoTable` produces. -/
def demoRound4 : Round :=
  { time := "10AM"
    matchups := [{ court := "Court 1", hasScores := true, teamA := "Red", teamB := "Blue",
                   scoreA := "21", scoreB := "18" },
                 { court := "Court 4", hasScores := false, teamA := "Gold", teamB := "Green",
                   scoreA := "", scoreB := "" }] }

/-- Demo round with an empty time label (invalid round). -/
def demoNoTimeRound : Round :=
  { time := "", matchups := [demoMatchup] }

/-- First demo round over two courts: "Red" plays on court 0. -/
def demoFRa : Round :=
  { time := "9AM",
    matchups := [{ court := "Court 1", hasScores := true, teamA := "Red", teamB := "Blue",
                   scoreA := "", scoreB := "" },
                 { court := "Court 2", hasScores := true, teamA := "Lime", teamB := "Teal",
                   scoreA := "", scoreB := "" }] }

/-- Second demo round over two courts: "Red" again only on court 0. -/
def demoFRb : Round :=
  { time := "10AM",
    matchups := [{ court := "Court 1", hasScores := true, teamA := "Pink", teamB := "Red",
                   scoreA := "", scoreB := "" },
                 { court := "Court 2", hasScores := true, teamA := "Blue", teamB := "Teal",
                   scoreA := "", scoreB := "" }] }

/-- Two valid rounds over two courts; team "Red" appears only on court 0. -/
def demoFilterRounds : List Round := [demoFRa, demoFRb]

/-- Demo matchup whose score strings do not parse as numbers. -/
def demoNaNMatchup : Matchup :=
  { court := "Court 1", hasScores := true, teamA := "Red", teamB := "Blue",
    scoreA := "abc", scoreB := "15" }

/-- Demo gviz error response whose first entry has an empty (but present)
`detailed_message`. -/
def demoErrResponse : GvizResponse :=
  { status := some ("error"),
    errors := some [{ message := some ("boom"), detailed_message := some ("") }] }

/-- Demo gviz error response with a non-empty `detailed_message`. -/
def demoErrResponse2 : GvizResponse :=
  { status := some ("error"),
    errors := some [{ message := some ("generic"), detailed_message := some ("detailed") }] }


theorem mem_ordInsert (le : α → α → Bool) (a x : α) (l : List α) :
    x ∈ ordInsert le a l ↔ x = a ∨ x ∈ l := by
  induction l with
  | nil => simp [ordInsert]
  | cons b t ih =>
    simp only [ordInsert]
    split
    · simp
    · simp [ih]
      tauto

theorem perm_ordInsert (le : α → α → Bool) (a : α) (l : List α) :
    List.Perm (ordInsert le a l) (a :: l) := by
  induction l with
  | nil => simp [ordInsert]
  | cons b t ih =>
    simp only [ordInsert]
    split
    · exact List.Perm.refl _
    · exact (ih.cons b).trans (List.Perm.swap a b t)

theorem perm_sortByLe (le : α → α → Bool) (l : List α) : List.Perm (sortByLe le l) l := by
  induction l with
  | nil => simp [sortByLe]
  | cons a t ih =>
    exact (perm_ordInsert le a (sortByLe le t)).trans (ih.cons a)

theorem pairwise_ordInsert (le : α → α → Bool)
    (htot : ∀ a b, le a b = false → le b a = true)
    (htrans : ∀ a b c, le a b = true → le b c = true → le a c = true)
    (a : α) (l : List α) (h : l.Pairwise (fun x y => le x y = true)) :
    (ordInsert le a l).Pairwise (fun x y => le x y = true) := by
  induction l with
  | nil => simp [ordInsert]
  | cons b t ih =>
    rcases List.pairwise_cons.mp h with ⟨hb, ht⟩
    by_cases hab : le a b = true
    · simp only [ordInsert, if_pos hab]
      refine List.pairwise_cons.mpr ⟨?_, h⟩
      intro x hx
      rcases List.mem_cons.mp hx with rfl | hxt
      · exact hab
      · exact htrans a b x hab (hb x hxt)
    · simp only [ordInsert, if_neg hab]
      simp only [Bool.not_eq_true] at hab
      refine List.pairwise_cons.mpr ⟨?_, ih ht⟩
      intro x hx
      rcases (mem_ordInsert le a x t).mp hx with rfl | hxt
      · exact htot _ b hab
      · exact hb x hxt

theorem pairwise_sortByLe (le : α → α → Bool)
    (htot : ∀ a b, le a b = false → le b a = true)
    (htrans : ∀ a b c, le a b = true → le b c = true → le a c = true)
    (l : List α) : (sortByLe le l).Pairwise (fun x y => le x y = true) := by
  induction l with
  | nil => simp [sortByLe]
  | cons a t ih => exact pairwise_ordInsert le htot htrans a (sortByLe le t) ih

theorem applyField_name (c : Court) (field : String) (i : Nat) :
    (applyField c field i).name = c.name := by
  unfold applyField
  repeat' split
  all_goals rfl

theorem applyField_scores_inv (c : Court) (field : String) (i : Nat)
    (h : c.hasScores = true → c.scoreACol.isSome ∨ c.scoreBCol.isSome) :
    (applyField c field i).hasScores = true →
      (applyField c field i).scoreACol.isSome ∨ (applyField c field i).scoreBCol.isSome := by
  unfold applyField
  repeat' split
  all_goals simp_all

theorem courtStep_scores_inv (acc : List Court) (i : Nat) (label : String)
    (hacc : ∀ c ∈ acc, c.hasScores = true → c.scoreACol.isSome ∨ c.scoreBCol.isSome) :
    ∀ c ∈ courtStep acc i label,
      c.hasScores = true → c.scoreACol.isSome ∨ c.scoreBCol.isSome := by
  simp only [courtStep]
  split
  · exact hacc
  · split
    · exact hacc
    · rename_i courtName suffixRaw heq
      intro c hc
      rcases List.mem_map.mp hc with ⟨d, hd, rfl⟩
      have hPd : d.hasScores = true → d.scoreACol.isSome ∨ d.scoreBCol.isSome := by
        by_cases hex : acc.any (fun c => c.name = courtName)
        · simp only [if_pos hex] at hd
          exact hacc d hd
        · simp only [if_neg hex, List.mem_append, List.mem_singleton] at hd
          rcases hd with hd | rfl
          · exact hacc d hd
          · simp [defaultCourt]
      split
      · exact applyField_scores_inv d _ i hPd
      · exact hPd

theorem courtStep_names_nodup (acc : List Court) (i : Nat) (label : String)
    (h : (acc.map (fun c => c.name)).Nodup) :
    ((courtStep acc i label).map (fun c => c.name)).Nodup := by
  simp only [courtStep]
  split
  · exact h
  · split
    · exact h
    · rename_i courtName suffixRaw heq
      have hmap : ∀ (l : List Court),
          ((l.map (fun c => if c.name = courtName then applyField c (jsToLower (jsTrim suffixRaw)) i else c)).map
            (fun c => c.name)) = l.map (fun c => c.name) := by
        intro l
        rw [List.map_map]
        refine List.map_congr_left ?_
        intro d _
        simp only [Function.comp]
        split
        · rename_i hdn
          rw [applyField_name, hdn]
        · rfl
      rw [hmap]
      by_cases hex : acc.any (fun c => c.name = courtName)
      · simp only [if_pos hex]
        exact h
      · simp only [if_neg hex]
        rw [List.map_append]
        rw [List.nodup_append]
        refine ⟨h, by simp [defaultCourt], ?_⟩
        intro x hx
        simp only [List.map_cons, List.map_nil, List.mem_singleton, defaultCourt]
        intro hxc
        subst hxc
        rcases List.mem_map.mp hx with ⟨d, hd, hdn⟩
        rw [List.any_eq_true] at hex
        exact hex ⟨d, hd, by simp [hdn]⟩

theorem foldl_courtStep_scores_inv (l : List (Nat × String)) :
    ∀ (acc : List Court),
      (∀ c ∈ acc, c.hasScores = true → c.scoreACol.isSome ∨ c.scoreBCol.isSome) →
      ∀ c ∈ l.foldl (fun acc p => courtStep acc p.1 p.2) acc,
        c.hasScores = true → c.scoreACol.isSome ∨ c.scoreBCol.isSome := by
  induction l with
  | nil => intro acc hacc c hc; exact hacc c hc
  | cons p t ih =>
    intro acc hacc c hc
    exact ih (courtStep acc p.1 p.2) (courtStep_scores_inv acc p.1 p.2 hacc) c hc

theorem foldl_courtStep_names_nodup (l : List (Nat × String)) :
    ∀ (acc : List Court), (acc.map (fun c => c.name)).Nodup →
      ((l.foldl (fun acc p => courtStep acc p.1 p.2) acc).map (fun c => c.name)).Nodup := by
  induction l with
  | nil => intro acc hacc; exact hacc
  | cons p t ih =>
    intro acc hacc
    exact ih (courtStep acc p.1 p.2) (courtStep_names_nodup acc p.1 p.2 hacc)

/-- A court produced by `parseCourts` with `hasScores` set has recorded at
least one score column; contrapositively, a court with no score columns has
`hasScores = false`. -/
theorem parseCourts_scores_inv (headers : List String) :
    ∀ c ∈ parseCourts headers,
      c.hasScores = true → c.scoreACol.isSome ∨ c.scoreBCol.isSome := by
  intro c hc
  unfold parseCourts at hc
  have hc' := (perm_sortByLe courtLe _).mem_iff.mp hc
  exact foldl_courtStep_scores_inv _ [] (by simp) c hc'

/-- Court names produced by `parseCourts` are pairwise distinct. -/
theorem parseCourts_names_nodup (headers : List String) :
    ((parseCourts headers).map (fun c => c.name)).Nodup := by
  unfold parseCourts
  have hperm := (perm_sortByLe courtLe
    ((withIdxFrom 0 headers).foldl (fun acc p => courtStep acc p.1 p.2) [])).map (fun c => c.name)
  exact hperm.nodup_iff.mpr (foldl_courtStep_names_nodup _ [] (by simp))

/-- Output of `parseCourts` is sorted ascending by the integer in the name. -/
theorem parseCourts_sorted (headers : List String) :
    (parseCourts headers).Pairwise (fun c d => courtNum c.name ≤ courtNum d.name) := by
  have h := pairwise_sortByLe courtLe
    (by intro a b hab
        simp only [courtLe, decide_eq_false_iff_not, not_le] at hab
        simpa [courtLe] using le_of_lt hab)
    (by intro a b c hab hbc
        simp only [courtLe, decide_eq_true_eq] at *
        exact le_trans hab hbc)
    ((withIdxFrom 0 headers).foldl (fun acc p => courtStep acc p.1 p.2) [])
  unfold parseCourts
  refine h.imp ?_
  intro a b hab
  simpa [courtLe] using hab

/-- Function `parseCourts` never looks at the first two header labels. -/
theorem parseCourts_skips_first_two (a b a' b' : String) (rest : List String) :
    parseCourts (a :: b :: rest) = parseCourts (a' :: b' :: rest) := by
  unfold parseCourts
  simp [withIdxFrom, courtStep]

theorem filterOption_total (p : α → Option Bool) (l : List α)
    (h : ∀ x ∈ l, (p x).isSome) :
    ∃ ys, filterOption p l = some ys ∧ ∀ x, x ∈ ys ↔ x ∈ l ∧ p x = some true := by
  induction l with
  | nil => exact ⟨[], rfl, by simp⟩
  | cons a t ih =>
    obtain ⟨b, hb⟩ := Option.isSome_iff_exists.mp (h a (List.mem_cons_self a t))
    obtain ⟨ys, hys, hmem⟩ := ih (fun x hx => h x (List.mem_cons_of_mem a hx))
    refine ⟨if b then a :: ys else ys, by simp [filterOption, hb, hys], ?_⟩
    intro x
    cases b with
    | true =>
      rw [show (if (true : Bool) then a :: ys else ys) = a :: ys from rfl]
      rw [List.mem_cons, hmem, List.mem_cons]
      constructor
      · intro hx
        rcases hx with rfl | ⟨h1, h2⟩
        · exact ⟨Or.inl rfl, hb⟩
        · exact ⟨Or.inr h1, h2⟩
      · intro hx
        rcases hx with ⟨h1 | h1, h2⟩
        · exact Or.inl h1
        · exact Or.inr ⟨h1, h2⟩
    | false =>
      rw [show (if (false : Bool) then a :: ys else ys) = ys from rfl]
      rw [hmem, List.mem_cons]
      constructor
      · intro hx
        exact ⟨Or.inr hx.1, hx.2⟩
      · intro hx
        rcases hx with ⟨h1 | h1, h2⟩
        · subst h1
          rw [h2] at hb
          cases hb
        · exact ⟨h1, h2⟩

theorem jsSome_total (p : α → Option Bool) (l : List α)
    (h : ∀ x ∈ l, (p x).isSome) :
    ∃ b, jsSome p l = some b ∧ (b = true ↔ ∃ x ∈ l, p x = some true) := by
  induction l with
  | nil => exact ⟨false, rfl, by simp⟩
  | cons a t ih =>
    obtain ⟨b, hb⟩ := Option.isSome_iff_exists.mp (h a (List.mem_cons_self a t))
    obtain ⟨c, hc, hciff⟩ := ih (fun x hx => h x (List.mem_cons_of_mem a hx))
    cases b with
    | true =>
      refine ⟨true, by simp [jsSome, hb], ?_⟩
      simp only [true_iff]
      exact ⟨a, List.mem_cons_self a t, hb⟩
    | false =>
      refine ⟨c, by simp [jsSome, hb, hc], ?_⟩
      rw [hciff]
      constructor
      · rintro ⟨x, hx, hpx⟩
        exact ⟨x, List.mem_cons_of_mem a hx, hpx⟩
      · rintro ⟨x, hx, hpx⟩
        rcases List.mem_cons.mp hx with rfl | hxt
        · rw [hpx] at hb
          cases hb
        · exact ⟨x, hxt, hpx⟩

theorem mapOption_total (g : α → Option β) (l : List α)
    (h : ∀ x ∈ l, (g x).isSome) :
    ∃ ys, mapOption g l = some ys ∧ ys.length = l.length := by
  induction l with
  | nil => exact ⟨[], rfl, rfl⟩
  | cons a t ih =>
    obtain ⟨y, hy⟩ := Option.isSome_iff_exists.mp (h a (List.mem_cons_self a t))
    obtain ⟨ys, hys, hlen⟩ := ih (fun x hx => h x (List.mem_cons_of_mem a hx))
    exact ⟨y :: ys, by simp [mapOption, hy, hys], by simp [hlen]⟩

theorem mapIdxOptionFrom_total (g : Nat → α → Option β) (l : List α) :
    ∀ (n : Nat), (∀ k x, l.get? k = some x → (g (n + k) x).isSome) →
      ∃ ys, mapIdxOptionFrom g n l = some ys := by
  induction l with
  | nil => exact fun n _ => ⟨[], rfl⟩
  | cons a t ih =>
    intro n h
    obtain ⟨y, hy⟩ := Option.isSome_iff_exists.mp (h 0 a rfl)
    obtain ⟨ys, hys⟩ := ih (n + 1) (fun k x hk => by
      have h2 := h (k + 1) x (by simpa using hk)
      have he : n + (k + 1) = n + 1 + k := by omega
      rw [he] at h2
      exact h2)
    refine ⟨y :: ys, ?_⟩
    rw [Nat.add_zero] at hy
    simp [mapIdxOptionFrom, hy, hys]

/-- Claim C2: `parseCourts` examines only headers at index 2 or greater,
matches the court pattern case-insensitively, classifies team/score
suffixes (setting `hasScores` for score columns), deduplicates courts by
exact name, and returns courts sorted ascending by the integer in the
name; on the spec's example headers it yields Court 2 (with scores)
followed by Court 10 (without). -/
theorem claim_C2 :
    (parseCourts ["", "Time", "Court 2 Team A", "Court 2 Score A",
        "Court 2 Team B", "Court 2 Score B", "Court 10 A", "Court 10 B"] =
      [{ name := "Court 2", hasScores := true, teamACol := some 2, teamBCol := some 4,
         scoreACol := some 3, scoreBCol := some 5 },
       { name := "Court 10", hasScores := false, teamACol := some 6, teamBCol := some 7 }]) ∧
    (parseCourts ["", "", "cOuRt 7 TEAM B"] =
      [{ name := "cOuRt 7", hasScores := false, teamBCol := some 2 }]) ∧
    (∀ (a b a' b' : String) (rest : List String),
        parseCourts (a :: b :: rest) = parseCourts (a' :: b' :: rest)) ∧
    (∀ headers : List String,
        (parseCourts headers).Pairwise (fun c d => courtNum c.name ≤ courtNum d.name)) ∧
    (∀ headers : List String, ((parseCourts headers).map (fun c => c.name)).Nodup) :=
  ⟨by decide, by decide, parseCourts_skips_first_two, parseCourts_sorted,
   parseCourts_names_nodup⟩

/-- Claim C3: time extraction at column index 1 tries, in order, the
pre-formatted display string (trimmed verbatim), the 12-hour rendering of
a time-of-day quadruple (`[9,0,0,0] → "9AM"`, `[13,30,0,0] → "1:30PM"`,
`[0,0,0,0] → "12AM"`, hour 0 mapped to 12 and 13 to 1, minutes two-digit
zero-padded), and plain stringify-and-trim; a missing cell or column
yields the empty string. -/
theorem claim_C3 :
    (∀ (c0 : Option GCell) (rest : List (Option GCell)) (v : Option GValue) (fs : String),
        timeCell ⟨some (c0 :: some ⟨v, some fs⟩ :: rest)⟩ 1 = jsTrim fs) ∧
    (∀ (c0 : Option GCell) (rest : List (Option GCell)) (h m sec ms : Nat),
        timeCell ⟨some (c0 :: some ⟨some (GValue.timeofday h m sec ms), none⟩ :: rest)⟩ 1 =
          jsTimeString h m) ∧
    (jsTimeString 9 0 = "9AM" ∧ jsTimeString 13 30 = "1:30PM" ∧ jsTimeString 0 0 = "12AM") ∧
    (∀ h : Nat, h < 24 →
        jsTimeString h 0 =
          Nat.repr (if h = 0 then 12 else if h ≤ 12 then h else h - 12) ++
            (if h ≥ 12 then "PM" else "AM")) ∧
    (∀ mm : Nat, mm < 60 →
        padStart2 (Nat.repr mm) = if mm < 10 then "0" ++ Nat.repr mm else Nat.repr mm) ∧
    (∀ (c0 : Option GCell) (rest : List (Option GCell)) (s : String),
        timeCell ⟨some (c0 :: some ⟨some (GValue.str s), none⟩ :: rest)⟩ 1 = jsTrim s) ∧
    (∀ (c0 : Option GCell) (rest : List (Option GCell)) (n : Int),
        timeCell ⟨some (c0 :: some ⟨some (GValue.num n), none⟩ :: rest)⟩ 1 =
          jsTrim (stringOfGValue (GValue.num n))) ∧
    (timeCell ⟨none⟩ 1 = "" ∧ timeCell ⟨some []⟩ 1 = "" ∧
      (∀ (c0 : Option GCell) (rest : List (Option GCell)),
          timeCell ⟨some (c0 :: none :: rest)⟩ 1 = "") ∧
      (∀ (c0 : Option GCell) (rest : List (Option GCell)),
          timeCell ⟨some (c0 :: some ⟨none, none⟩ :: rest)⟩ 1 = "")) :=
  ⟨fun _ _ _ _ => rfl, fun _ _ _ _ _ _ => rfl, by decide, by decide, by decide,
   fun _ _ _ => rfl, fun _ _ _ => rfl,
   rfl, rfl, fun _ _ => rfl, fun _ _ => rfl⟩

/-- Witness for claim C3 at concrete inputs: hour 13 renders as 1 o'clock
PM and minute 5 is zero-padded. -/
theorem claim_C3_witness :
    (13 < 24 ∧
      jsTimeString 13 0 =
        Nat.repr (if 13 = 0 then 12 else if 13 ≤ 12 then 13 else 13 - 12) ++
          (if 13 ≥ 12 then "PM" else "AM")) ∧
    (5 < 60 ∧ padStart2 (Nat.repr 5) = if 5 < 10 then "0" ++ Nat.repr 5 else Nat.repr 5) :=
  ⟨⟨by decide, claim_C3.2.2.2.1 13 (by decide)⟩,
   ⟨by decide, claim_C3.2.2.2.2.1 5 (by decide)⟩⟩

/-- Claim C4: `parseRounds` yields one round per data row; every round's
matchup sequence has the same length and court order as `parseCourts` on
the table's headers; and a court with no score columns always yields a
matchup with empty scores and `hasScores = false`, regardless of cell
contents. -/
theorem claim_C4 (table : GTable) :
    ((parseRounds table).length = table.rows.length) ∧
    (∀ r ∈ parseRounds table,
        r.matchups.map (fun m => m.court) =
          (parseCourts (tableHeaders table)).map (fun c => c.name) ∧
        r.matchups.length = (parseCourts (tableHeaders table)).length) ∧
    (∀ r ∈ parseRounds table, ∀ (j : Nat) (ct : Court),
        (parseCourts (tableHeaders table)).get? j = some ct →
        ct.scoreACol = none → ct.scoreBCol = none →
        ∃ m, r.matchups.get? j = some m ∧
          m.scoreA = "" ∧ m.scoreB = "" ∧ m.hasScores = false) := by
  refine ⟨by simp [parseRounds], ?_, ?_⟩
  · intro r hr
    simp only [parseRounds, List.mem_map] at hr
    obtain ⟨row, hrow, rfl⟩ := hr
    constructor
    · simp [List.map_map]
    · simp
  · intro r hr j ct hct hsa hsb
    simp only [parseRounds, List.mem_map] at hr
    obtain ⟨row, hrow, rfl⟩ := hr
    have hmem : ct ∈ parseCourts (tableHeaders table) := List.get?_mem hct
    have hfalse : ct.hasScores = false := by
      cases hhs : ct.hasScores with
      | false => rfl
      | true =>
        rcases parseCourts_scores_inv (tableHeaders table) ct hmem hhs with h1 | h1
        · rw [hsa] at h1
          cases h1
        · rw [hsb] at h1
          cases h1
    refine ⟨{ court := ct.name, hasScores := ct.hasScores, teamA := cell row ct.teamACol,
              teamB := cell row ct.teamBCol,
              scoreA := match ct.scoreACol with | some i => cell row (some i) | none => "",
              scoreB := match ct.scoreBCol with | some i => cell row (some i) | none => "" },
      ?_, ?_, ?_, ?_⟩
    · simp only [List.get?_map, hct, Option.map_some']
    · simp [hsa]
    · simp [hsb]
    · simp [hfalse]

/-- Witness for claim C4 on the demo table: one round comes out, its
matchup list mirrors the parsed courts, and the compact Court 4 gets empty
scores with `hasScores = false`. -/
theorem claim_C4_witness :
    ((parseRounds demoTable).length = demoTable.rows.length) ∧
    (demoRound4.matchups.map (fun m => m.court) =
        (parseCourts (tableHeaders demoTable)).map (fun c => c.name)) ∧
    (∃ m, demoRound4.matchups.get? 1 = some m ∧
        m.scoreA = "" ∧ m.scoreB = "" ∧ m.hasScores = false) :=
  ⟨(claim_C4 demoTable).1,
   (((claim_C4 demoTable).2.1 demoRound4 (by decide)).1),
   ((claim_C4 demoTable).2.2 demoRound4 (by decide) 1
      { name := "Court 4", hasScores := false, teamACol := some 6, teamBCol := some 7 }
      (by decide) (by decide) (by decide))⟩

/-- Claim C5: `renderAll` only consumes rounds with a non-empty time — an
empty-time round never contributes a column — and when no valid rounds
remain it produces the empty-state message and builds no grid. -/
theorem claim_C5 :
    (∀ (pre post : List Round) (r : Round) (f : String), r.time = "" →
        renderAll (pre ++ r :: post) f = renderAll (pre ++ post) f) ∧
    (∀ (rounds : List Round) (f : String),
        rounds.filter (fun r => r.time ≠ "") = [] →
        renderAll rounds f = some emptySheetMsg) := by
  constructor
  · intro pre post r f h
    simp only [renderAll, List.filter_append, List.filter_cons, h]
    simp
  · intro rounds f h
    simp only [renderAll, h]
    rfl

/-- Witness for claim C5: a single invalid (empty-time) round renders like
the empty list, producing the empty-state message. -/
theorem claim_C5_witness :
    (demoNoTimeRound.time = "" ∧
      renderAll ([] ++ demoNoTimeRound :: []) "" = renderAll ([] ++ []) "") ∧
    ([demoNoTimeRound].filter (fun r => r.time ≠ "") = [] ∧
      renderAll [demoNoTimeRound] "" = some emptySheetMsg) :=
  ⟨⟨rfl, claim_C5.1 [] [] demoNoTimeRound "" rfl⟩,
   ⟨by decide, claim_C5.2 [demoNoTimeRound] "" (by decide)⟩⟩

/-- Counterexample to claim C1 as stated: in a schedule whose only valid
round carries scores 21-15, the cell belongs to the last valid round, so
the claim says no winner is highlighted — but the code enables winner
highlighting (`nextRoundHasData` is true because `isLastRound` short-
circuits the disjunction to true) and side A is marked winner. -/
theorem claim_C1_counterexample :
    claimedShowWinnerC1 demoSingleRounds 0 = false ∧
    0 = demoSingleRounds.length - 1 ∧
    nextRoundHasData demoSingleRounds 0 = true ∧
    aWins demoMatchup (nextRoundHasData demoSingleRounds 0) = true := by
  decide

/-- Claim C1 as amended: winner highlighting for a cell is enabled exactly
when the cell's round is the last valid round, or the immediately
following valid round has some matchup with a non-empty team field. -/
theorem claim_C1_amended (vr : List Round) (roundIdx : Nat) :
    nextRoundHasData vr roundIdx = true ↔
      (roundIdx = vr.length - 1 ∨
        ∃ nr, vr.get? (roundIdx + 1) = some nr ∧
          ∃ m ∈ nr.matchups, (m.teamA ≠ "" ∨ m.teamB ≠ "")) := by
  simp only [nextRoundHasData, List.get?_eq_getElem?]
  cases h : vr[roundIdx + 1]? with
  | none => simp [h]
  | some nr => simp [h, List.any_eq_true]

theorem jsSome_roundHasTeamAt (f : String) (i : Nat) (vr : List Round)
    (h : ∀ r ∈ vr, (roundHasTeamAt f i r).isSome) :
    ∃ b, jsSome (roundHasTeamAt f i) vr = some b ∧
      (b = true ↔ ∃ r ∈ vr, ∃ m, r.matchups.get? i = some m ∧
        (m.teamA = f ∨ m.teamB = f)) := by
  obtain ⟨b, hb, hiff⟩ := jsSome_total _ vr h
  refine ⟨b, hb, ?_⟩
  rw [hiff]
  constructor
  · rintro ⟨r, hr, hrt⟩
    rw [roundHasTeamAt, Option.map_eq_some'] at hrt
    obtain ⟨m, hm, hdec⟩ := hrt
    exact ⟨r, hr, m, hm, of_decide_eq_true hdec⟩
  · rintro ⟨r, hr, m, hm, hor⟩
    refine ⟨r, hr, ?_⟩
    rw [roundHasTeamAt, hm]
    simp [hor]

theorem roundHasTeamAt_isSome (f : String) (i : Nat) (r : Round)
    (h : i < r.matchups.length) : (roundHasTeamAt f i r).isSome := by
  simp [roundHasTeamAt, List.get?_eq_getElem?, List.getElem?_eq_getElem h]

theorem cellHtml_isSome (vr : List Round) (f : String) (courtIdx roundIdx : Nat)
    (round : Round) (h : courtIdx < round.matchups.length) :
    (cellHtml vr f courtIdx roundIdx round).isSome := by
  simp [cellHtml, List.get?_eq_getElem?, List.getElem?_eq_getElem h]

theorem courtRowHtml_isSome (vr : List Round) (allCourts : List Matchup) (f : String)
    (courtIdx : Nat) (hc : courtIdx < allCourts.length)
    (hrect : ∀ r ∈ vr, courtIdx < r.matchups.length) :
    (courtRowHtml vr allCourts f courtIdx).isSome := by
  obtain ⟨ys, hys⟩ := mapIdxOptionFrom_total (cellHtml vr f courtIdx) vr 0 (fun k x hk =>
    cellHtml_isSome vr f courtIdx (0 + k) x (hrect x (List.get?_mem hk)))
  simp [courtRowHtml, List.get?_eq_getElem?, List.getElem?_eq_getElem hc, mapIdxOption, hys]

/-- Claim C6: with an empty filter every court index is selected; with an
active filter a court row is selected iff some valid round's matchup on
that court has `teamA` or `teamB` equal to the filter; when no court
qualifies `renderAll` produces the no-matches message and stops; and with
an empty filter the grid renders one row per court. -/
theorem claim_C6 :
    (∀ (vr : List Round) (n : Nat), courtRowIndices vr n "" = some (List.range n)) ∧
    (∀ (vr : List Round) (n : Nat) (f : String), f ≠ "" →
        (∀ r ∈ vr, n ≤ r.matchups.length) →
        ∃ l, courtRowIndices vr n f = some l ∧
          ∀ i, i ∈ l ↔ i < n ∧ ∃ r ∈ vr, ∃ m, r.matchups.get? i = some m ∧
            (m.teamA = f ∨ m.teamB = f)) ∧
    (∀ (rounds : List Round) (f : String) (v0 : Round) (vrest : List Round), f ≠ "" →
        rounds.filter (fun r => r.time ≠ "") = v0 :: vrest →
        courtRowIndices (v0 :: vrest) v0.matchups.length f = some [] →
        renderAll rounds f = some noMatchesMsg) ∧
    (∀ (rounds : List Round) (v0 : Round) (vrest : List Round),
        rounds.filter (fun r => r.time ≠ "") = v0 :: vrest →
        (∀ r ∈ v0 :: vrest, v0.matchups.length ≤ r.matchups.length) →
        ∃ s, renderAll rounds "" = some s) := by
  refine ⟨?_, ?_, ?_, ?_⟩
  · intro vr n
    simp [courtRowIndices]
  · intro vr n f hf hrect
    have hsome : ∀ i ∈ List.range n, (jsSome (roundHasTeamAt f i) vr).isSome := by
      intro i hi
      have hin := List.mem_range.mp hi
      obtain ⟨b, hb, _⟩ := jsSome_roundHasTeamAt f i vr (fun r hr =>
        roundHasTeamAt_isSome f i r (lt_of_lt_of_le hin (hrect r hr)))
      simp [hb]
    obtain ⟨l, hl, hmem⟩ := filterOption_total _ (List.range n) hsome
    refine ⟨l, by simp [courtRowIndices, if_neg hf, hl], ?_⟩
    intro i
    rw [hmem i, List.mem_range]
    constructor
    · rintro ⟨hin, htrue⟩
      obtain ⟨b, hb, hiff⟩ := jsSome_roundHasTeamAt f i vr (fun r hr =>
        roundHasTeamAt_isSome f i r (lt_of_lt_of_le hin (hrect r hr)))
      rw [hb] at htrue
      exact ⟨hin, hiff.mp (Option.some_inj.mp htrue)⟩
    · rintro ⟨hin, hex⟩
      obtain ⟨b, hb, hiff⟩ := jsSome_roundHasTeamAt f i vr (fun r hr =>
        roundHasTeamAt_isSome f i r (lt_of_lt_of_le hin (hrect r hr)))
      exact ⟨hin, by rw [hb, hiff.mpr hex]⟩
  · intro rounds f v0 vrest hf hfil hidx
    simp only [renderAll, hfil, renderAllValid]
    rw [hidx]
    simp [hf]
  · intro rounds v0 vrest hfil hrect
    obtain ⟨rows, hrows, _⟩ := mapOption_total (courtRowHtml (v0 :: vrest) v0.matchups "")
      (List.range v0.matchups.length) (fun i hi => by
        have hin := List.mem_range.mp hi
        exact courtRowHtml_isSome _ _ _ i hin
          (fun r hr => lt_of_lt_of_le hin (hrect r hr)))
    refine Option.isSome_iff_exists.mp ?_
    simp only [renderAll, hfil, renderAllValid]
    have h1 : courtRowIndices (v0 :: vrest) v0.matchups.length "" =
        some (List.range v0.matchups.length) := by simp [courtRowIndices]
    rw [h1]
    dsimp only
    rw [if_neg (by simp)]
    simp [renderGrid, hrows]

/-- Witness for claim C6 on the demo schedule: both courts show without a
filter; filtering on "Red" selects exactly the courts where Red plays;
filtering on an absent team yields the no-matches message; the unfiltered
grid renders. -/
theorem claim_C6_witness :
    (courtRowIndices demoFilterRounds 2 "" = some (List.range 2)) ∧
    (∃ l, courtRowIndices demoFilterRounds 2 "Red" = some l ∧
        ∀ i, i ∈ l ↔ i < 2 ∧ ∃ r ∈ demoFilterRounds, ∃ m, r.matchups.get? i = some m ∧
          (m.teamA = "Red" ∨ m.teamB = "Red")) ∧
    (renderAll demoFilterRounds "Nobody" = some noMatchesMsg) ∧
    (∃ s, renderAll demoFilterRounds "" = some s) :=
  ⟨claim_C6.1 demoFilterRounds 2,
   claim_C6.2.1 demoFilterRounds 2 "Red" (by decide) (by decide),
   claim_C6.2.2.1 demoFilterRounds "Nobody" demoFRa [demoFRb] (by decide) (by decide)
     (by decide),
   claim_C6.2.2.2 demoFilterRounds demoFRa [demoFRb] (by decide) (by decide)⟩

set_option maxRecDepth 8192 in
/-- Claim C7: winner computation parses both scores only when both score
strings are non-empty; whichever side holds the strictly higher score is
marked winner (side A when scoreA is higher, side B when scoreB is
higher); equal scores or an empty score on either side mark no winner (the
latter regardless of `showWinner`); concretely (21, 15) marks side A,
(15, 21) marks side B, and (15, 15) marks neither. -/
theorem claim_C7 :
    (∀ m : Matchup, bothScoresPresent m = true ↔ (m.scoreA ≠ "" ∧ m.scoreB ≠ "")) ∧
    (∀ (m : Matchup) (sw : Bool), m.scoreA = "" ∨ m.scoreB = "" →
        aWins m sw = false ∧ bWins m sw = false) ∧
    (∀ (m : Matchup) (x y : ℚ), matchupScoreA m = some (JSNum.val x) →
        matchupScoreB m = some (JSNum.val y) → y < x →
        aWins m true = true ∧ bWins m true = false) ∧
    (∀ (m : Matchup) (x y : ℚ), matchupScoreA m = some (JSNum.val x) →
        matchupScoreB m = some (JSNum.val y) → x < y →
        bWins m true = true ∧ aWins m true = false) ∧
    (∀ (m : Matchup) (q : ℚ) (sw : Bool), matchupScoreA m = some (JSNum.val q) →
        matchupScoreB m = some (JSNum.val q) →
        aWins m sw = false ∧ bWins m sw = false) ∧
    (renderMatchup demoMatchup true =
      "<div class=\"match-teams\">\n  <div class=\"team-row winner\">\n    <span class=\"team-players\">Red</span><span class=\"team-score\">21</span>\n  </div>\n  <div class=\"vs-divider\">vs</div>\n  <div class=\"team-row\">\n    <span class=\"team-players\">Blue</span><span class=\"team-score\">15</span>\n  </div>\n</div>") ∧
    (renderMatchup demoMatchupBWin true =
      "<div class=\"match-teams\">\n  <div class=\"team-row\">\n    <span class=\"team-players\">Red</span><span class=\"team-score\">15</span>\n  </div>\n  <div class=\"vs-divider\">vs</div>\n  <div class=\"team-row winner\">\n    <span class=\"team-players\">Blue</span><span class=\"team-score\">21</span>\n  </div>\n</div>") ∧
    (aWins demoTie true = false ∧ bWins demoTie true = false) := by
  refine ⟨?_, ?_, ?_, ?_, ?_, by decide, by decide, by decide⟩
  · intro m
    by_cases ha : m.scoreA = "" <;> by_cases hb : m.scoreB = "" <;>
      simp [bothScoresPresent, matchupScoreA, matchupScoreB, ha, hb]
  · intro m sw h
    rcases h with h | h <;>
      simp [aWins, bWins, bothScoresPresent, matchupScoreA, matchupScoreB, h]
  · intro m x y hA hB hxy
    constructor <;>
      simp [aWins, bWins, bothScoresPresent, jsGtOpt, jsNumOfNullable, jsGt,
        hA, hB, hxy, lt_asymm hxy]
  · intro m x y hA hB hxy
    constructor <;>
      simp [aWins, bWins, bothScoresPresent, jsGtOpt, jsNumOfNullable, jsGt,
        hA, hB, hxy, lt_asymm hxy]
  · intro m q sw hA hB
    constructor <;>
      simp [aWins, bWins, bothScoresPresent, jsGtOpt, jsNumOfNullable, jsGt,
        hA, hB, lt_irrefl]

/-- Witness for claim C7 at scores 21/15 and 15/21: both parse; with the
higher scoreA side A alone is marked winner, and with the higher scoreB
side B alone is marked winner. -/
theorem claim_C7_witness :
    (matchupScoreA demoMatchup = some (JSNum.val 21) ∧
      matchupScoreB demoMatchup = some (JSNum.val 15) ∧ (15 : ℚ) < 21 ∧
      aWins demoMatchup true = true ∧ bWins demoMatchup true = false) ∧
    (matchupScoreA demoMatchupBWin = some (JSNum.val 15) ∧
      matchupScoreB demoMatchupBWin = some (JSNum.val 21) ∧ (15 : ℚ) < 21 ∧
      bWins demoMatchupBWin true = true ∧ aWins demoMatchupBWin true = false) :=
  ⟨⟨by decide, by decide, by decide,
    (claim_C7.2.2.1 demoMatchup 21 15 (by decide) (by decide) (by decide)).1,
    (claim_C7.2.2.1 demoMatchup 21 15 (by decide) (by decide) (by decide)).2⟩,
   ⟨by decide, by decide, by decide,
    (claim_C7.2.2.2.1 demoMatchupBWin 15 21 (by decide) (by decide) (by decide)).1,
    (claim_C7.2.2.2.1 demoMatchupBWin 15 21 (by decide) (by decide) (by decide)).2⟩⟩

/-- Claim C10: a non-empty score string that does not parse as a number
(`Number` yields `NaN`) marks no winner on either side, even when
`showWinner` is true and both score strings are non-empty, because every
`NaN` comparison is false. -/
theorem claim_C10 (m : Matchup) (sw : Bool) (ha : m.scoreA ≠ "") (hb : m.scoreB ≠ "")
    (h : jsNumber m.scoreA = JSNum.nan ∨ jsNumber m.scoreB = JSNum.nan) :
    aWins m sw = false ∧ bWins m sw = false := by
  have hA : matchupScoreA m = some (jsNumber m.scoreA) := by simp [matchupScoreA, ha]
  have hB : matchupScoreB m = some (jsNumber m.scoreB) := by simp [matchupScoreB, hb]
  rcases h with h | h
  · constructor <;>
      cases hcase : jsNumber m.scoreB <;>
        simp [aWins, bWins, jsGtOpt, jsNumOfNullable, jsGt, hA, hB, h, hcase]
  · constructor <;>
      cases hcase : jsNumber m.scoreA <;>
        simp [aWins, bWins, jsGtOpt, jsNumOfNullable, jsGt, hA, hB, h, hcase]

/-- Witness for claim C10: score string "abc" parses to `NaN` and no
winner is marked. -/
theorem claim_C10_witness :
    demoNaNMatchup.scoreA ≠ "" ∧ demoNaNMatchup.scoreB ≠ "" ∧
    jsNumber demoNaNMatchup.scoreA = JSNum.nan ∧
    aWins demoNaNMatchup true = false ∧ bWins demoNaNMatchup true = false :=
  ⟨by decide, by decide, by decide,
   (claim_C10 demoNaNMatchup true (by decide) (by decide) (Or.inl (by decide))).1,
   (claim_C10 demoNaNMatchup true (by decide) (by decide) (Or.inl (by decide))).2⟩

/-- Counterexample to claim C8 as stated: when the first error entry's
`detailed_message` is present but empty, the claim selects it, yet the
code's `||` chain treats the empty string as falsy and rejects with the
`message` field instead. -/
theorem claim_C8_counterexample :
    handleGvizResponse (some demoErrResponse) = Except.error ("boom") ∧
    claimedErrorDetailC8 demoErrResponse = "" ∧
    ("boom" : String) ≠ "" :=
  ⟨by rfl, by rfl, by decide⟩

/-- Claim C8 as amended: a non-"ok" response rejects with the first error
entry's `detailed_message` when present and non-empty, else its `message`
when present and non-empty, else the fixed placeholder (also when there is
no error entry at all). -/
theorem claim_C8_amended (r : GvizResponse) (hstat : r.status ≠ some ("ok")) :
    (∀ e dm, firstGvizError (some r) = some e → e.detailed_message = some dm → dm ≠ "" →
        handleGvizResponse (some r) = Except.error dm) ∧
    (∀ e msg, firstGvizError (some r) = some e →
        (e.detailed_message = none ∨ e.detailed_message = some ("")) →
        e.message = some msg → msg ≠ "" →
        handleGvizResponse (some r) = Except.error msg) ∧
    (∀ e, firstGvizError (some r) = some e →
        (e.detailed_message = none ∨ e.detailed_message = some ("")) →
        (e.message = none ∨ e.message = some ("")) →
        handleGvizResponse (some r) = Except.error unknownErrorMsg) ∧
    (firstGvizError (some r) = none →
        handleGvizResponse (some r) = Except.error unknownErrorMsg) := by
  have hh : handleGvizResponse (some r) = Except.error (gvizDetail (some r)) := by
    simp [handleGvizResponse, hstat]
  refine ⟨?_, ?_, ?_, ?_⟩
  · intro e dm he hdm hne
    rw [hh]
    congr 1
    simp [gvizDetail, he, hdm, jsOrString, hne]
  · intro e msg he hdm hmsg hne
    rw [hh]
    congr 1
    rcases hdm with hdm | hdm <;> simp [gvizDetail, he, hdm, hmsg, jsOrString, hne]
  · intro e he hdm hmsg
    rw [hh]
    congr 1
    rcases hdm with hdm | hdm <;> rcases hmsg with hmsg | hmsg <;>
      simp [gvizDetail, he, hdm, hmsg, jsOrString]
  · intro he
    rw [hh]
    congr 1
    simp [gvizDetail, he, jsOrString]

/-- Witness for the amended claim C8: a response with a non-empty
`detailed_message` rejects with exactly that string. -/
theorem claim_C8_amended_witness :
    demoErrResponse2.status ≠ some ("ok") ∧
    handleGvizResponse (some demoErrResponse2) = Except.error ("detailed") :=
  ⟨by decide,
   (claim_C8_amended demoErrResponse2 (by decide)).1
     { message := some ("generic"), detailed_message := some ("detailed") }
     "detailed" (by decide) (by decide) (by decide)⟩

/-- Claim C9: when a load cycle fails, the cached rounds are exactly what
they were before the cycle, while the content area is replaced by an error
message containing the failure's message text. -/
theorem claim_C9 (e now : String) (st : AppState) :
    (loadData (Except.error e) now st).cachedRounds = st.cachedRounds ∧
    (loadData (Except.error e) now st).activeTeamFilter = st.activeTeamFilter ∧
    (loadData (Except.error e) now st).content = errorContent e ∧
    errorContent e = "<p class=\"error-msg\">Could not load sheet data: " ++ e ++ "</p>" :=
  ⟨rfl, rfl, rfl, rfl⟩
